import Mathlib

/-!
Verification development for the ride-matching core of the `omw-mvp-v0`
repository (`src/Map.tsx`, matching module: `haversineDistance`,
`minDistanceToRoute`, `isCorrectDirection`, `estimateDetourDistance`,
`detourDistanceToMinutes`, `findMatches`).

The JavaScript number type is modelled by an arbitrary linear ordered field
`α` (instantiated at `ℚ` for concrete evaluations and at `ℝ` for the
haversine primitive); `Infinity` is modelled by `⊤` in `WithTop α`.
The matcher is parametric in the point-to-point distance primitive `D`,
which the source instantiates with `haversineDistance`; every statement
about the matcher's filter logic holds for an arbitrary `D`, and the
real-valued haversine instance is defined below for the claims that
concern the geometry itself.
-/

namespace OMW

/-- Translation of the `Coordinate` interface: a latitude/longitude pair. -/
structure Coordinate (α : Type) where
  lat : α
  lon : α
  deriving DecidableEq

/-- Translation of the `RideOffer` interface.  `departureTime` is the epoch
millisecond value delivered by `Date.getTime()`. -/
structure RideOffer (α : Type) where
  id : String
  departure : Coordinate α
  destination : Coordinate α
  departureTime : α
  maxDetourMinutes : α
  freeSeats : α
  route : List (Coordinate α)
  deriving DecidableEq

/-- Translation of the `RideRequest` interface (`from` is a Lean keyword, so
the field is named `from_`). -/
structure RideRequest (α : Type) where
  id : String
  from_ : Coordinate α
  to_ : Coordinate α
  departureTime : α
  maxWalkMeters : α
  rideNow : Bool
  deriving DecidableEq

variable {α : Type} [LinearOrderedField α]

/-- Translation of `minDistanceToRoute`: fold the strict-less-than update
`if (dist < minDist) minDist = dist` over the route, starting from
`Infinity` (`⊤`). -/
def minDistanceToRoute (D : Coordinate α → Coordinate α → α)
    (point : Coordinate α) (route : List (Coordinate α)) : WithTop α :=
  route.foldl
    (fun minDist node =>
      if (D point node : WithTop α) < minDist then (D point node : WithTop α) else minDist)
    ⊤

/-- The expression `bestIdx >= 0 ? D(point, route[bestIdx]) : Infinity`
appearing in the nearest-index `reduce` of `findMatches`.  The source only
ever evaluates `route[bestIdx]` with `bestIdx` a valid index, so the
out-of-range arm (which would be a runtime type error in JavaScript) is
unreachable; it is modelled as `⊤`. -/
def routeDistAt (D : Coordinate α → Coordinate α → α)
    (point : Coordinate α) (route : List (Coordinate α)) (i : ℤ) : WithTop α :=
  if 0 ≤ i then
    match route.get? i.toNat with
    | some node => (D point node : WithTop α)
    | none => ⊤
  else ⊤

/-- The body of the `reduce` used by `findMatches` to locate the waypoint
nearest to a point: accumulator `best` starts at `-1`; at position `i` the
candidate distance replaces the accumulator exactly when it is strictly
smaller. -/
def nearestIdxGo (D : Coordinate α → Coordinate α → α)
    (point : Coordinate α) (route : List (Coordinate α)) :
    ℕ → List (Coordinate α) → ℤ → ℤ
  | _, [], best => best
  | i, node :: rest, best =>
      nearestIdxGo D point route (i + 1) rest
        (if (D point node : WithTop α) < routeDistAt D point route best then (i : ℤ) else best)

/-- Translation of the `offer.route.reduce((bestIdx, node, idx) => ..., -1)`
expressions in `findMatches` computing `pickupIdx` and `dropoffIdx`. -/
def nearestIdx (D : Coordinate α → Coordinate α → α)
    (point : Coordinate α) (route : List (Coordinate α)) : ℤ :=
  nearestIdxGo D point route 0 route (-1)

/-- Translation of `isCorrectDirection`. -/
def isCorrectDirection (pickupIdx dropoffIdx : ℤ) : Bool :=
  decide (0 ≤ pickupIdx) && decide (0 ≤ dropoffIdx) && decide (pickupIdx < dropoffIdx)

/-- Translation of `estimateDetourDistance`. -/
def estimateDetourDistance (D : Coordinate α → Coordinate α → α)
    (offer : RideOffer α) (pickupPoint dropoffPoint : Coordinate α) : α :=
  D offer.departure pickupPoint + D pickupPoint dropoffPoint
    + D dropoffPoint offer.destination - D offer.departure offer.destination

/-- Translation of `detourDistanceToMinutes`; the source defaults
`avgSpeedKph` to `30`, and every call site uses that default. -/
def detourDistanceToMinutes (detourMeters avgSpeedKph : α) : α :=
  detourMeters / (avgSpeedKph * 1000 / 60)

/-- `timeMarginMinutes` from the head of `findMatches`:
`request.rideNow ? 5 : 15`. -/
def timeMarginMinutes (request : RideRequest α) : α :=
  if request.rideNow then 5 else 15

/-- `windowStart = requestedTime - timeMarginMinutes * 60 * 1000`. -/
def windowStart (request : RideRequest α) : α :=
  request.departureTime - timeMarginMinutes request * 60 * 1000

/-- `windowEnd = requestedTime + timeMarginMinutes * 60 * 1000`. -/
def windowEnd (request : RideRequest α) : α :=
  request.departureTime + timeMarginMinutes request * 60 * 1000

/-- Capacity filter (`if (offer.freeSeats <= 0) continue`), phrased as the
condition under which the offer is retained. -/
def passesCapacity (offer : RideOffer α) : Bool :=
  !decide (offer.freeSeats ≤ 0)

/-- Time-window filter
(`if (offerTime < windowStart || offerTime > windowEnd) continue`), phrased
as the condition under which the offer is retained. -/
def passesTimeWindow (request : RideRequest α) (offer : RideOffer α) : Bool :=
  !(decide (offer.departureTime < windowStart request)
    || decide (windowEnd request < offer.departureTime))

/-- Walking-distance filter (`if (pickupDistance > request.maxWalkMeters ||
dropoffDistance > request.maxWalkMeters) continue`), phrased as the
condition under which the offer is retained. -/
def passesWalkFilter (D : Coordinate α → Coordinate α → α)
    (request : RideRequest α) (offer : RideOffer α) : Bool :=
  !(decide ((request.maxWalkMeters : WithTop α) < minDistanceToRoute D request.from_ offer.route)
    || decide ((request.maxWalkMeters : WithTop α) < minDistanceToRoute D request.to_ offer.route))

/-- Detour filter (`if (detourMinutes > offer.maxDetourMinutes ||
detourMinutes > 5) continue`), phrased as the condition under which the
offer is retained. -/
def passesDetourFilter (D : Coordinate α → Coordinate α → α)
    (request : RideRequest α) (offer : RideOffer α) : Bool :=
  !(decide (offer.maxDetourMinutes
      < detourDistanceToMinutes (estimateDetourDistance D offer request.from_ request.to_) 30)
    || decide ((5 : α)
      < detourDistanceToMinutes (estimateDetourDistance D offer request.from_ request.to_) 30))

/-- `score = detourMinutes * 2 + (pickupDistance + dropoffDistance) / 1000`.
When the score is computed the walking filter has already bounded both
distances by `maxWalkMeters`, so they are finite; `untop' 0` extracts the
finite value (the `0` default is unreachable there). -/
def scoreOf (D : Coordinate α → Coordinate α → α)
    (request : RideRequest α) (offer : RideOffer α) : α :=
  detourDistanceToMinutes (estimateDetourDistance D offer request.from_ request.to_) 30 * 2
    + ((minDistanceToRoute D request.from_ offer.route).untop' 0
        + (minDistanceToRoute D request.to_ offer.route).untop' 0) / 1000

/-- One iteration of the candidate loop of `findMatches`: the sequence of
`continue` guards, and on survival the `(offer, score)` pair that is pushed
onto `results`. -/
def processOffer (D : Coordinate α → Coordinate α → α)
    (request : RideRequest α) (offer : RideOffer α) : Option (RideOffer α × α) :=
  if !passesCapacity offer then none
  else if !passesTimeWindow request offer then none
  else if !passesWalkFilter D request offer then none
  else if !isCorrectDirection (nearestIdx D request.from_ offer.route)
            (nearestIdx D request.to_ offer.route) then none
  else if !passesDetourFilter D request offer then none
  else some (offer, scoreOf D request offer)

/-- The comparator `(a, b) => a.score - b.score` of the final
`results.sort`: it orders pairs by their score component. -/
def scoreLE (a b : RideOffer α × α) : Bool :=
  decide (a.2 ≤ b.2)

/-- Translation of `findMatches`.  The loop collects the surviving
`(offer, score)` pairs in input order and `results.sort((a, b) =>
a.score - b.score)` then sorts them ascending by score with a stable sort
(ECMAScript `Array.prototype.sort` is stable).  The `currentTime` parameter
mirrors the source's `currentTime: Date = new Date()`; the body of the
source function never reads it. -/
def findMatches (D : Coordinate α → Coordinate α → α)
    (offers : List (RideOffer α)) (request : RideRequest α) (currentTime : α) :
    List (RideOffer α × α) :=
  (offers.filterMap (processOffer D request)).mergeSort scoreLE

/-! ### The geometric primitive of the source: `haversineDistance`

The JavaScript `Math.atan2(y, x)` agrees with the argument of the complex
number `x + y·i` (both live in `(-π, π]`, with `atan2(0, 0) = 0 = arg 0`),
so `atan2` is modelled through `Complex.arg`. -/

/-- JavaScript `Math.atan2 (y, x)`, modelled as the argument of `x + y·i`. -/
noncomputable def atan2 (y x : ℝ) : ℝ :=
  Complex.arg ⟨x, y⟩

/-- Translation of `haversineDistance` (exact real arithmetic in place of
IEEE-754 doubles). -/
noncomputable def haversineDistance (a b : Coordinate ℝ) : ℝ :=
  let R : ℝ := 6371000
  let φ1 : ℝ := a.lat * Real.pi / 180
  let φ2 : ℝ := b.lat * Real.pi / 180
  let Δφ : ℝ := (b.lat - a.lat) * Real.pi / 180
  let Δlon : ℝ := (b.lon - a.lon) * Real.pi / 180
  let sinΔφ : ℝ := Real.sin (Δφ / 2)
  let sinΔlon : ℝ := Real.sin (Δlon / 2)
  let aa : ℝ := sinΔφ * sinΔφ + Real.cos φ1 * Real.cos φ2 * (sinΔlon * sinΔlon)
  let c : ℝ := 2 * atan2 (Real.sqrt aa) (Real.sqrt (1 - aa))
  R * c

/-- The unit vector of ℝ³ pointed to by a latitude/longitude pair (used to
relate `haversineDistance` to the central angle between points on the
sphere). -/
noncomputable def sphVec (p : Coordinate ℝ) : EuclideanSpace ℝ (Fin 3) :=
  (WithLp.equiv 2 (Fin 3 → ℝ)).symm
    ![Real.cos (p.lat * Real.pi / 180) * Real.cos (p.lon * Real.pi / 180),
      Real.cos (p.lat * Real.pi / 180) * Real.sin (p.lon * Real.pi / 180),
      Real.sin (p.lat * Real.pi / 180)]

/-! ### Concrete rational-valued instances used to exercise the matcher -/

/-- A concrete computable distance function on rational coordinates
(taxicab distance), used to evaluate the matcher on explicit inputs. -/
def Dtaxi : Coordinate ℚ → Coordinate ℚ → ℚ :=
  fun a b => |a.lat - b.lat| + |a.lon - b.lon|

/-- A distance function crafted so that the four-leg detour estimate of
`offerN`/`reqN` is negative (the direct leg is long, the detour legs are
short). -/
def Dneg : Coordinate ℚ → Coordinate ℚ → ℚ :=
  fun a b =>
    if a.lat = 1 ∧ b.lat = 2 then 100
    else if a.lat = 4 ∧ b.lat = 3 then 7
    else 0

/-- An offer that survives every filter of `findMatches` against `reqA`. -/
def offerA : RideOffer ℚ :=
  { id := "o1", departure := ⟨0, 0⟩, destination := ⟨0, 3⟩, departureTime := 0,
    maxDetourMinutes := 5, freeSeats := 2, route := [⟨0, 0⟩, ⟨0, 3⟩] }

/-- A request matching `offerA` exactly (zero walking distance, zero
detour). -/
def reqA : RideRequest ℚ :=
  { id := "r1", from_ := ⟨0, 0⟩, to_ := ⟨0, 3⟩, departureTime := 0,
    maxWalkMeters := 100, rideNow := false }

/-- `reqA` with origin and destination swapped: the nearest waypoint of the
pickup comes after the nearest waypoint of the dropoff. -/
def reqArev : RideRequest ℚ :=
  { id := "r2", from_ := ⟨0, 3⟩, to_ := ⟨0, 0⟩, departureTime := 0,
    maxWalkMeters := 100, rideNow := false }

/-- An offer whose detour against `reqB` is 2000 m = 4 minutes, with
`maxDetourMinutes = 3`. -/
def offerB : RideOffer ℚ :=
  { id := "o2", departure := ⟨1000, 0⟩, destination := ⟨1000, 10⟩, departureTime := 0,
    maxDetourMinutes := 3, freeSeats := 1, route := [⟨0, 0⟩, ⟨0, 10⟩] }

/-- A request whose pickup/dropoff lie on `offerB`'s route but force its
4-minute detour. -/
def reqB : RideRequest ℚ :=
  { id := "r3", from_ := ⟨0, 0⟩, to_ := ⟨0, 10⟩, departureTime := 0,
    maxWalkMeters := 50, rideNow := false }

/-- A malformed offer: no free seats. -/
def offerSeatless : RideOffer ℚ :=
  { id := "o0", departure := ⟨0, 0⟩, destination := ⟨0, 3⟩, departureTime := 0,
    maxDetourMinutes := 5, freeSeats := 0, route := [⟨0, 0⟩, ⟨0, 3⟩] }

/-- A malformed offer: empty route. -/
def offerNoRoute : RideOffer ℚ :=
  { id := "oE", departure := ⟨0, 0⟩, destination := ⟨0, 1⟩, departureTime := 0,
    maxDetourMinutes := 5, freeSeats := 1, route := [] }

/-- With `Dneg`, the detour estimate for this offer against `reqN` is
`0 + 0 + 0 - 100 = -100` meters, i.e. `-1/5` minutes. -/
def offerN : RideOffer ℚ :=
  { id := "oN", departure := ⟨1, 0⟩, destination := ⟨2, 0⟩, departureTime := 0,
    maxDetourMinutes := 5, freeSeats := 1, route := [⟨3, 0⟩, ⟨4, 0⟩] }

/-- The request paired with `offerN` under `Dneg`. -/
def reqN : RideRequest ℚ :=
  { id := "rN", from_ := ⟨3, 0⟩, to_ := ⟨4, 0⟩, departureTime := 0,
    maxWalkMeters := 10, rideNow := false }

/-- A point used to exercise the nearest-waypoint search. -/
def pt6 : Coordinate ℚ := ⟨0, 1⟩

/-- A route with a duplicated nearest waypoint, exercising the
first-occurrence tie-break of the nearest-waypoint search. -/
def rt6 : List (Coordinate ℚ) := [⟨0, 1⟩, ⟨0, 1⟩, ⟨0, 5⟩]

section MatcherLemmas

variable {D : Coordinate α → Coordinate α → α} {request : RideRequest α} {offer : RideOffer α}

lemma processOffer_eq_some_iff {p : RideOffer α × α} :
    processOffer D request offer = some p ↔
      passesCapacity offer = true ∧ passesTimeWindow request offer = true ∧
      passesWalkFilter D request offer = true ∧
      isCorrectDirection (nearestIdx D request.from_ offer.route)
        (nearestIdx D request.to_ offer.route) = true ∧
      passesDetourFilter D request offer = true ∧
      p = (offer, scoreOf D request offer) := by
  unfold processOffer
  cases h1 : passesCapacity offer <;>
    cases h2 : passesTimeWindow request offer <;>
      cases h3 : passesWalkFilter D request offer <;>
        cases h4 : isCorrectDirection (nearestIdx D request.from_ offer.route)
            (nearestIdx D request.to_ offer.route) <;>
          cases h5 : passesDetourFilter D request offer <;>
            simp [eq_comm]

lemma processOffer_eq_none_of_direction
    (h : isCorrectDirection (nearestIdx D request.from_ offer.route)
        (nearestIdx D request.to_ offer.route) = false) :
    processOffer D request offer = none := by
  unfold processOffer
  cases h1 : passesCapacity offer <;>
    cases h2 : passesTimeWindow request offer <;>
      cases h3 : passesWalkFilter D request offer <;> simp [h]

lemma mem_findMatches_iff {offers : List (RideOffer α)} {t : α} {p : RideOffer α × α} :
    p ∈ findMatches D offers request t ↔
      ∃ o, o ∈ offers ∧ processOffer D request o = some p := by
  rw [findMatches, List.mem_mergeSort, List.mem_filterMap]

lemma mem_findMatches (offers : List (RideOffer α)) (t : α) {p : RideOffer α × α}
    (h : p ∈ findMatches D offers request t) :
    ∃ o, o ∈ offers ∧ processOffer D request o = some p :=
  mem_findMatches_iff.mp h

lemma processOffer_some_parts {p : RideOffer α × α}
    (h : processOffer D request offer = some p) :
    p.1 = offer ∧ p.2 = scoreOf D request offer ∧
      passesCapacity offer = true ∧ passesTimeWindow request offer = true ∧
      passesWalkFilter D request offer = true ∧
      isCorrectDirection (nearestIdx D request.from_ offer.route)
        (nearestIdx D request.to_ offer.route) = true ∧
      passesDetourFilter D request offer = true := by
  obtain ⟨h1, h2, h3, h4, h5, hp⟩ := processOffer_eq_some_iff.mp h
  subst hp
  exact ⟨rfl, rfl, h1, h2, h3, h4, h5⟩

lemma passesWalkFilter_eq_false_of_empty (h : offer.route = []) :
    passesWalkFilter D request offer = false := by
  simp [passesWalkFilter, minDistanceToRoute, h, WithTop.coe_lt_top]

lemma processOffer_eq_none_of_capacity (h : passesCapacity offer = false) :
    processOffer D request offer = none := by
  unfold processOffer
  rw [h]
  simp

lemma processOffer_eq_none_of_walk (h : passesWalkFilter D request offer = false) :
    processOffer D request offer = none := by
  unfold processOffer
  cases h1 : passesCapacity offer <;>
    cases h2 : passesTimeWindow request offer <;> simp [h]

lemma routeDistAt_neg_one {point : Coordinate α} {route : List (Coordinate α)} :
    routeDistAt D point route (-1) = ⊤ := by
  simp [routeDistAt]

lemma routeDistAt_coe {point : Coordinate α} {route : List (Coordinate α)} {j : ℕ}
    (hj : j < route.length) :
    routeDistAt D point route (j : ℤ) = (D point route[j] : WithTop α) := by
  simp [routeDistAt, List.getElem?_eq_getElem hj]

/-- Invariant of the nearest-waypoint `reduce`: if the accumulator is the
first index minimising the distance over the first `i` waypoints, the fold
over the remaining waypoints produces the first index minimising the
distance over the whole route. -/
lemma nearestIdxGo_spec (D : Coordinate α → Coordinate α → α) (point : Coordinate α)
    (route : List (Coordinate α)) (rest : List (Coordinate α)) :
    ∀ i b : ℕ, route.drop i = rest → b < i → b < route.length →
      (∀ j, j < i → routeDistAt D point route (b : ℤ) ≤ routeDistAt D point route (j : ℤ)) →
      (∀ j, j < b → routeDistAt D point route (b : ℤ) < routeDistAt D point route (j : ℤ)) →
      ∃ k : ℕ, nearestIdxGo D point route i rest (b : ℤ) = (k : ℤ) ∧ k < route.length ∧
        (∀ j, j < route.length →
          routeDistAt D point route (k : ℤ) ≤ routeDistAt D point route (j : ℤ)) ∧
        (∀ j, j < k → routeDistAt D point route (k : ℤ) < routeDistAt D point route (j : ℤ)) := by
  induction rest with
  | nil =>
    intro i b hdrop hbi hbl hmin hstrict
    refine ⟨b, rfl, hbl, ?_, hstrict⟩
    intro j hj
    exact hmin j (lt_of_lt_of_le hj (List.drop_eq_nil_iff.mp hdrop))
  | cons node rest' ih =>
    intro i b hdrop hbi hbl hmin hstrict
    have hi : i < route.length := by
      by_contra hcon
      rw [List.drop_eq_nil_of_le (le_of_not_lt hcon)] at hdrop
      exact List.cons_ne_nil _ _ hdrop.symm
    have hcons := List.drop_eq_getElem_cons hi
    rw [hdrop] at hcons
    injection hcons with hnode hrest
    have hDi : routeDistAt D point route (i : ℤ) = (D point node : WithTop α) := by
      rw [routeDistAt_coe hi, hnode]
    simp only [nearestIdxGo]
    by_cases hc : (D point node : WithTop α) < routeDistAt D point route (b : ℤ)
    · rw [if_pos hc]
      apply ih (i + 1) i hrest.symm (Nat.lt_succ_self i) hi
      · intro j hj
        rcases Nat.lt_succ_iff_lt_or_eq.mp hj with hj | hj
        · rw [hDi]
          exact le_of_lt (lt_of_lt_of_le hc (hmin j hj))
        · subst hj
          exact le_refl _
      · intro j hj
        rw [hDi]
        exact lt_of_lt_of_le hc (hmin j hj)
    · rw [if_neg hc]
      apply ih (i + 1) b hrest.symm (Nat.lt_succ_of_lt hbi) hbl
      · intro j hj
        rcases Nat.lt_succ_iff_lt_or_eq.mp hj with hj | hj
        · exact hmin j hj
        · subst hj
          rw [hDi]
          exact le_of_not_lt hc
      · exact hstrict

lemma scoreLE_trans (a b c : RideOffer α × α)
    (hab : scoreLE a b) (hbc : scoreLE b c) : scoreLE a c := by
  simp only [scoreLE, decide_eq_true_eq] at hab hbc ⊢
  exact le_trans hab hbc

lemma scoreLE_total (a b : RideOffer α × α) : scoreLE a b || scoreLE b a := by
  simp only [scoreLE]
  rcases le_total a.2 b.2 with h | h <;> simp [h]

/-- The output of `findMatches` is pairwise non-decreasing in the score
component. -/
lemma findMatches_pairwise (D : Coordinate α → Coordinate α → α)
    (offers : List (RideOffer α)) (request : RideRequest α) (t : α) :
    (findMatches D offers request t).Pairwise (fun a b => a.2 ≤ b.2) := by
  have h := List.sorted_mergeSort scoreLE_trans scoreLE_total
    (offers.filterMap (processOffer D request))
  rw [findMatches]
  exact h.imp fun hab => by simpa [scoreLE] using hab

end MatcherLemmas

section FixtureEvaluations

/-- Evaluation of the candidate loop on the matching pair `offerA`/`reqA`. -/
lemma filterMap_fixtureA :
    List.filterMap (processOffer Dtaxi reqA) [offerA] = [(offerA, 0)] := by
  norm_num [-WithTop.coe_ofNat, -WithTop.coe_zero, -WithTop.coe_one, -WithTop.coe_add,
    -WithTop.coe_mul, processOffer, passesCapacity, passesTimeWindow, passesWalkFilter,
    passesDetourFilter, windowStart, windowEnd, timeMarginMinutes, minDistanceToRoute,
    nearestIdx, nearestIdxGo, routeDistAt, isCorrectDirection, scoreOf,
    detourDistanceToMinutes, estimateDetourDistance, WithTop.coe_lt_top, WithTop.coe_lt_coe,
    WithTop.coe_le_coe, WithTop.untop'_coe, List.filterMap_cons, List.filterMap_nil,
    Dtaxi, reqA, offerA]

/-- `findMatches` on the matching pair `offerA`/`reqA`. -/
lemma findMatches_fixtureA : findMatches Dtaxi [offerA] reqA 0 = [(offerA, 0)] := by
  rw [findMatches, filterMap_fixtureA]
  exact List.mergeSort_singleton _

lemma fixtureB_capacity : passesCapacity offerB = true := by
  norm_num [passesCapacity, offerB]

lemma fixtureB_time : passesTimeWindow reqB offerB = true := by
  norm_num [passesTimeWindow, windowStart, windowEnd, timeMarginMinutes, reqB, offerB]

lemma fixtureB_walk : passesWalkFilter Dtaxi reqB offerB = true := by
  norm_num [-WithTop.coe_ofNat, -WithTop.coe_zero, -WithTop.coe_one, -WithTop.coe_add,
    -WithTop.coe_mul, passesWalkFilter, minDistanceToRoute, WithTop.coe_lt_top,
    WithTop.coe_lt_coe, WithTop.coe_le_coe, Dtaxi, reqB, offerB]

lemma fixtureB_direction :
    isCorrectDirection (nearestIdx Dtaxi reqB.from_ offerB.route)
      (nearestIdx Dtaxi reqB.to_ offerB.route) = true := by
  norm_num [-WithTop.coe_ofNat, -WithTop.coe_zero, -WithTop.coe_one, -WithTop.coe_add,
    -WithTop.coe_mul, isCorrectDirection, nearestIdx, nearestIdxGo, routeDistAt,
    WithTop.coe_lt_top, WithTop.coe_lt_coe, Dtaxi, reqB, offerB]

/-- Evaluation of the candidate loop on the negative-detour pair
`offerN`/`reqN` under `Dneg`: the detour is `-100` m (`-1/5` min), the
score `-2/5`. -/
lemma filterMap_fixtureN :
    List.filterMap (processOffer Dneg reqN) [offerN] = [(offerN, -2/5)] := by
  norm_num [-WithTop.coe_ofNat, -WithTop.coe_zero, -WithTop.coe_one, -WithTop.coe_add,
    -WithTop.coe_mul, processOffer, passesCapacity, passesTimeWindow, passesWalkFilter,
    passesDetourFilter, windowStart, windowEnd, timeMarginMinutes, minDistanceToRoute,
    nearestIdx, nearestIdxGo, routeDistAt, isCorrectDirection, scoreOf,
    detourDistanceToMinutes, estimateDetourDistance, WithTop.coe_lt_top, WithTop.coe_lt_coe,
    WithTop.coe_le_coe, WithTop.untop'_coe, List.filterMap_cons, List.filterMap_nil,
    Dneg, reqN, offerN]

/-- `findMatches` returns the negative-scored match for `offerN`/`reqN`. -/
lemma findMatches_fixtureN : findMatches Dneg [offerN] reqN 0 = [(offerN, -2/5)] := by
  rw [findMatches, filterMap_fixtureN]
  exact List.mergeSort_singleton _

lemma fixtureArev_pickup : nearestIdx Dtaxi reqArev.from_ offerA.route = 1 := by
  norm_num [-WithTop.coe_ofNat, -WithTop.coe_zero, -WithTop.coe_one, -WithTop.coe_add,
    -WithTop.coe_mul, nearestIdx, nearestIdxGo, routeDistAt, WithTop.coe_lt_top,
    WithTop.coe_lt_coe, Dtaxi, reqArev, offerA]

lemma fixtureArev_dropoff : nearestIdx Dtaxi reqArev.to_ offerA.route = 0 := by
  norm_num [-WithTop.coe_ofNat, -WithTop.coe_zero, -WithTop.coe_one, -WithTop.coe_add,
    -WithTop.coe_mul, nearestIdx, nearestIdxGo, routeDistAt, WithTop.coe_lt_top,
    WithTop.coe_lt_coe, Dtaxi, reqArev, offerA]

end FixtureEvaluations

/-- C1: the time-window filter of `findMatches` retains an offer if and only
if its departure time lies in the closed interval
`[request.departureTime - tol, request.departureTime + tol]` with
`tol = 5 min` (in ms) when `rideNow` and `15 min` otherwise — both
boundaries inclusive — and every offer in the output of `findMatches`
passed that filter. -/
theorem time_window_filter_characterization :
    (∀ (request : RideRequest α) (offer : RideOffer α),
      passesTimeWindow request offer = true ↔
        request.departureTime - (if request.rideNow then (5 : α) else 15) * 60 * 1000
            ≤ offer.departureTime ∧
          offer.departureTime
            ≤ request.departureTime + (if request.rideNow then (5 : α) else 15) * 60 * 1000) ∧
    (∀ (D : Coordinate α → Coordinate α → α) (offers : List (RideOffer α))
        (request : RideRequest α) (t : α) (p : RideOffer α × α),
      p ∈ findMatches D offers request t → passesTimeWindow request p.1 = true) := by
  constructor
  · intro request offer
    simp only [passesTimeWindow, windowStart, windowEnd, timeMarginMinutes,
      Bool.not_eq_true', Bool.or_eq_false_iff, decide_eq_false_iff_not, not_lt]
  · intro D offers request t p hp
    obtain ⟨o, _, hsome⟩ := mem_findMatches_iff.mp hp
    obtain ⟨hfst, _, _, htw, _, _, _⟩ := processOffer_some_parts hsome
    rw [hfst]
    exact htw

/-- Witness for C1 at a concrete input: the pair `(offerA, 0)` is in the
output of `findMatches`, and it indeed passed the time-window filter. -/
theorem time_window_filter_characterization_witness :
    (offerA, (0 : ℚ)) ∈ findMatches Dtaxi [offerA] reqA 0 ∧
      passesTimeWindow reqA offerA = true := by
  have hm : (offerA, (0 : ℚ)) ∈ findMatches Dtaxi [offerA] reqA 0 := by
    rw [findMatches_fixtureA]
    exact List.mem_singleton.mpr rfl
  exact ⟨hm, time_window_filter_characterization.2 Dtaxi [offerA] reqA 0 (offerA, 0) hm⟩

/-- C3: for a candidate that survives the capacity, time-window,
walking-distance and direction filters, the detour filter excludes it
(`processOffer` yields `none`) exactly when the detour in minutes exceeds
`offer.maxDetourMinutes` or exceeds the global 5-minute ceiling. -/
theorem detour_filter_dual_ceiling (D : Coordinate α → Coordinate α → α)
    (request : RideRequest α) (offer : RideOffer α)
    (h1 : passesCapacity offer = true)
    (h2 : passesTimeWindow request offer = true)
    (h3 : passesWalkFilter D request offer = true)
    (h4 : isCorrectDirection (nearestIdx D request.from_ offer.route)
        (nearestIdx D request.to_ offer.route) = true) :
    processOffer D request offer = none ↔
      (offer.maxDetourMinutes
          < detourDistanceToMinutes (estimateDetourDistance D offer request.from_ request.to_) 30
        ∨ (5 : α)
          < detourDistanceToMinutes
              (estimateDetourDistance D offer request.from_ request.to_) 30) := by
  have hchar : passesDetourFilter D request offer = false ↔
      (offer.maxDetourMinutes
          < detourDistanceToMinutes (estimateDetourDistance D offer request.from_ request.to_) 30
        ∨ (5 : α)
          < detourDistanceToMinutes
              (estimateDetourDistance D offer request.from_ request.to_) 30) := by
    simp [passesDetourFilter, imp_iff_not_or, not_le]
  have hproc : processOffer D request offer
      = if !passesDetourFilter D request offer then none
        else some (offer, scoreOf D request offer) := by
    unfold processOffer
    rw [h1, h2, h3, h4]
    simp
  rw [hproc, ← hchar]
  cases h5 : passesDetourFilter D request offer <;> simp [h5]

/-- Witness for C3 at a concrete input: `offerB` survives the first four
filters against `reqB`, its detour is 4 minutes with
`maxDetourMinutes = 3`, and the detour filter excludes it. -/
theorem detour_filter_dual_ceiling_witness :
    passesCapacity offerB = true ∧ passesTimeWindow reqB offerB = true ∧
      passesWalkFilter Dtaxi reqB offerB = true ∧
      isCorrectDirection (nearestIdx Dtaxi reqB.from_ offerB.route)
        (nearestIdx Dtaxi reqB.to_ offerB.route) = true ∧
      processOffer Dtaxi reqB offerB = none := by
  refine ⟨fixtureB_capacity, fixtureB_time, fixtureB_walk, fixtureB_direction, ?_⟩
  exact (detour_filter_dual_ceiling Dtaxi reqB offerB fixtureB_capacity fixtureB_time
      fixtureB_walk fixtureB_direction).mpr
    (Or.inl (by norm_num [detourDistanceToMinutes, estimateDetourDistance, Dtaxi, reqB, offerB]))

/-- C4: the direction check succeeds exactly when both nearest-waypoint
indices are non-sentinel and the pickup index is strictly below the dropoff
index; whenever the pickup index is greater than or equal to the dropoff
index the offer is excluded from the output of `findMatches`. -/
theorem direction_filter_strict_order :
    (∀ pickupIdx dropoffIdx : ℤ,
      isCorrectDirection pickupIdx dropoffIdx = true ↔
        0 ≤ pickupIdx ∧ 0 ≤ dropoffIdx ∧ pickupIdx < dropoffIdx) ∧
    (∀ (D : Coordinate α → Coordinate α → α) (offers : List (RideOffer α))
        (request : RideRequest α) (t : α) (offer : RideOffer α) (s : α),
      nearestIdx D request.to_ offer.route ≤ nearestIdx D request.from_ offer.route →
      (offer, s) ∉ findMatches D offers request t) := by
  constructor
  · intro p d
    simp [isCorrectDirection, and_assoc]
  · intro D offers request t offer s hle hmem
    obtain ⟨o, _, hsome⟩ := mem_findMatches_iff.mp hmem
    obtain ⟨hfst, _, _, _, _, hdir, _⟩ := processOffer_some_parts hsome
    have ho : offer = o := hfst
    subst ho
    simp only [isCorrectDirection, Bool.and_eq_true, decide_eq_true_eq] at hdir
    omega

/-- Witness for C4 at a concrete input: against the reversed request
`reqArev`, the dropoff's nearest waypoint (index 0) does not come after the
pickup's (index 1), and `offerA` is excluded. -/
theorem direction_filter_strict_order_witness :
    nearestIdx Dtaxi reqArev.to_ offerA.route ≤ nearestIdx Dtaxi reqArev.from_ offerA.route ∧
      (offerA, (0 : ℚ)) ∉ findMatches Dtaxi [offerA] reqArev 0 := by
  have h : nearestIdx Dtaxi reqArev.to_ offerA.route
      ≤ nearestIdx Dtaxi reqArev.from_ offerA.route := by
    rw [fixtureArev_pickup, fixtureArev_dropoff]
    norm_num
  exact ⟨h, direction_filter_strict_order.2 Dtaxi [offerA] reqArev 0 offerA 0 h⟩

/-- C7: a malformed offer — one with an empty route or non-positive free
seats, and in general any offer rejected by the candidate loop — never
affects the result for the other offers: deleting it from the input list
leaves the output of `findMatches` unchanged (hence every other offer's
presence, score and position are identical). -/
theorem malformed_offer_noninterference :
    (∀ (D : Coordinate α → Coordinate α → α) (request : RideRequest α) (m : RideOffer α),
      m.route = [] → processOffer D request m = none) ∧
    (∀ (D : Coordinate α → Coordinate α → α) (request : RideRequest α) (m : RideOffer α),
      m.freeSeats ≤ 0 → processOffer D request m = none) ∧
    (∀ (D : Coordinate α → Coordinate α → α) (l₁ l₂ : List (RideOffer α)) (m : RideOffer α)
        (request : RideRequest α) (t : α),
      processOffer D request m = none →
      findMatches D (l₁ ++ m :: l₂) request t = findMatches D (l₁ ++ l₂) request t) := by
  refine ⟨?_, ?_, ?_⟩
  · intro D request m h
    exact processOffer_eq_none_of_walk (passesWalkFilter_eq_false_of_empty h)
  · intro D request m h
    exact processOffer_eq_none_of_capacity (by simp [passesCapacity, h])
  · intro D l₁ l₂ m request t h
    rw [findMatches, findMatches, List.filterMap_append, List.filterMap_append,
      List.filterMap_cons_none h]

/-- Witness for C7 at a concrete input: the seatless offer is rejected by
the candidate loop, and inserting it next to `offerA` leaves the output
unchanged. -/
theorem malformed_offer_noninterference_witness :
    offerSeatless.freeSeats ≤ (0 : ℚ) ∧ processOffer Dtaxi reqA offerSeatless = none ∧
      findMatches Dtaxi ([offerA] ++ offerSeatless :: []) reqA 0
        = findMatches Dtaxi ([offerA] ++ []) reqA 0 := by
  have hseats : offerSeatless.freeSeats ≤ (0 : ℚ) := by norm_num [offerSeatless]
  have hnone := malformed_offer_noninterference.2.1 Dtaxi reqA offerSeatless hseats
  exact ⟨hseats, hnone,
    malformed_offer_noninterference.2.2 Dtaxi [offerA] [] offerSeatless reqA 0 hnone⟩

/-- C8: degenerate routes are silently excluded: an empty route produces the
infinite (`⊤`) nearest distance and the sentinel index `-1`, a
single-waypoint route forces both nearest indices to `0`, and an offer
whose route has fewer than two waypoints never appears in the output of
`findMatches` (all functions involved are total, so no error can be
raised). -/
theorem degenerate_route_never_matches :
    (∀ (D : Coordinate α → Coordinate α → α) (point : Coordinate α),
      minDistanceToRoute D point [] = ⊤) ∧
    (∀ (D : Coordinate α → Coordinate α → α) (point : Coordinate α),
      nearestIdx D point [] = -1) ∧
    (∀ (D : Coordinate α → Coordinate α → α) (point w : Coordinate α),
      nearestIdx D point [w] = 0) ∧
    (∀ (D : Coordinate α → Coordinate α → α) (offers : List (RideOffer α))
        (request : RideRequest α) (t : α) (offer : RideOffer α) (s : α),
      offer.route.length < 2 → (offer, s) ∉ findMatches D offers request t) := by
  have hsingle : ∀ (D : Coordinate α → Coordinate α → α) (point w : Coordinate α),
      nearestIdx D point [w] = 0 := by
    intro D point w
    norm_num [nearestIdx, nearestIdxGo, routeDistAt, WithTop.coe_lt_top]
  refine ⟨fun D point => rfl, fun D point => rfl, hsingle, ?_⟩
  intro D offers request t offer s hlen hmem
  obtain ⟨o, _, hsome⟩ := mem_findMatches_iff.mp hmem
  obtain ⟨hfst, _, _, _, hwalk, hdir, _⟩ := processOffer_some_parts hsome
  have ho : offer = o := hfst
  subst ho
  cases hroute : offer.route with
  | nil =>
    rw [passesWalkFilter_eq_false_of_empty hroute] at hwalk
    exact absurd hwalk (by simp)
  | cons w tl =>
    rw [hroute] at hlen
    have htl : tl = [] := by
      have h2 : tl.length + 1 < 2 := by simpa using hlen
      have h0 : tl.length = 0 := by omega
      exact List.length_eq_zero.mp h0
    subst htl
    rw [hroute, hsingle D request.from_ w, hsingle D request.to_ w] at hdir
    exact absurd hdir (by simp [isCorrectDirection])

/-- Witness for C8 at a concrete input: the empty-route offer never appears
in the output. -/
theorem degenerate_route_never_matches_witness :
    offerNoRoute.route.length < 2 ∧
      (offerNoRoute, (0 : ℚ)) ∉ findMatches Dtaxi [offerNoRoute] reqA 0 := by
  have h : offerNoRoute.route.length < 2 := by norm_num [offerNoRoute]
  exact ⟨h, degenerate_route_never_matches.2.2.2 Dtaxi [offerNoRoute] reqA 0 offerNoRoute 0 h⟩

/-- C10: the output of `findMatches` is non-decreasing in the score, every
returned pair carries the score
`detourMinutes * 2 + (pickupDistance + dropoffDistance) / 1000` of its
offer, and the output is empty exactly when no offer survives the candidate
loop. -/
theorem output_sorted_by_score :
    (∀ (D : Coordinate α → Coordinate α → α) (offers : List (RideOffer α))
        (request : RideRequest α) (t : α),
      (findMatches D offers request t).Pairwise (fun a b => a.2 ≤ b.2)) ∧
    (∀ (D : Coordinate α → Coordinate α → α) (offers : List (RideOffer α))
        (request : RideRequest α) (t : α) (p : RideOffer α × α),
      p ∈ findMatches D offers request t → p.2 = scoreOf D request p.1) ∧
    (∀ (D : Coordinate α → Coordinate α → α) (offers : List (RideOffer α))
        (request : RideRequest α) (t : α),
      findMatches D offers request t = [] ↔
        ∀ o ∈ offers, processOffer D request o = none) := by
  refine ⟨findMatches_pairwise, ?_, ?_⟩
  · intro D offers request t p hp
    obtain ⟨o, _, hsome⟩ := mem_findMatches_iff.mp hp
    obtain ⟨hfst, hsnd, _⟩ := processOffer_some_parts hsome
    rw [hsnd, hfst]
  · intro D offers request t
    rw [findMatches]
    constructor
    · intro h
      have hperm := List.mergeSort_perm (offers.filterMap (processOffer D request)) scoreLE
      rw [h] at hperm
      have hnil := hperm.nil_eq.symm
      exact List.filterMap_eq_nil_iff.mp hnil
    · intro h
      rw [List.filterMap_eq_nil_iff.mpr h, List.mergeSort_nil]

/-- Witness for C10 at a concrete input: the surviving pair's score is the
score formula of its offer, and the output on an empty offer list is
empty. -/
theorem output_sorted_by_score_witness :
    (offerA, (0 : ℚ)) ∈ findMatches Dtaxi [offerA] reqA 0 ∧
      (0 : ℚ) = scoreOf Dtaxi reqA offerA ∧
      findMatches Dtaxi [] reqA 0 = [] := by
  have hm : (offerA, (0 : ℚ)) ∈ findMatches Dtaxi [offerA] reqA 0 := by
    rw [findMatches_fixtureA]
    exact List.mem_singleton.mpr rfl
  refine ⟨hm, output_sorted_by_score.2.1 Dtaxi [offerA] reqA 0 (offerA, 0) hm, ?_⟩
  exact (output_sorted_by_score.2.2 Dtaxi [] reqA 0).mpr (by simp)

/-- C6: for a non-empty route the nearest-waypoint `reduce` returns the
first (lowest) index attaining the minimal distance to the point — the
strict-less-than replacement keeps the earliest minimiser — and it returns
the sentinel `-1` exactly when the route is empty. -/
theorem nearestIdx_first_min (D : Coordinate α → Coordinate α → α) (point : Coordinate α)
    (route : List (Coordinate α)) :
    (nearestIdx D point route = -1 ↔ route = []) ∧
    (route ≠ [] →
      ∃ k : ℕ, ∃ hk : k < route.length, nearestIdx D point route = (k : ℤ) ∧
        (∀ j, ∀ hj : j < route.length, D point route[k] ≤ D point route[j]) ∧
        (∀ j, ∀ hj : j < route.length, j < k → D point route[k] < D point route[j])) := by
  cases route with
  | nil =>
    constructor
    · simp [nearestIdx, nearestIdxGo]
    · intro h
      exact absurd rfl h
  | cons c cs =>
    have hstep : nearestIdx D point (c :: cs)
        = nearestIdxGo D point (c :: cs) 1 cs ((0 : ℕ) : ℤ) := by
      rw [nearestIdx]
      simp only [nearestIdxGo, routeDistAt_neg_one]
      rw [if_pos (WithTop.coe_lt_top _)]
    obtain ⟨k, hk_eq, hk_lt, hmin, hstrict⟩ :=
      nearestIdxGo_spec D point (c :: cs) cs 1 0 (by simp) Nat.zero_lt_one (by simp)
        (fun j hj => by
          have hj0 : j = 0 := by omega
          subst hj0
          exact le_refl _)
        (fun j hj => absurd hj (Nat.not_lt_zero j))
    constructor
    · constructor
      · intro h
        rw [hstep, hk_eq] at h
        omega
      · intro h
        exact absurd h (List.cons_ne_nil c cs)
    · intro _
      refine ⟨k, hk_lt, by rw [hstep, hk_eq], ?_, ?_⟩
      · intro j hj
        have hle := hmin j hj
        rw [routeDistAt_coe hk_lt, routeDistAt_coe hj] at hle
        exact WithTop.coe_le_coe.mp hle
      · intro j hj hjk
        have hlt := hstrict j hjk
        rw [routeDistAt_coe hk_lt, routeDistAt_coe hj] at hlt
        exact WithTop.coe_lt_coe.mp hlt

/-- Witness for C6 at a concrete input: on a route whose first two waypoints
are equidistant from the point, the returned index is `0` (the first
occurrence), and the general characterization instantiates. -/
theorem nearestIdx_first_min_witness :
    rt6 ≠ [] ∧ nearestIdx Dtaxi pt6 rt6 = 0 ∧
      (∃ k : ℕ, ∃ hk : k < rt6.length, nearestIdx Dtaxi pt6 rt6 = (k : ℤ) ∧
        (∀ j, ∀ hj : j < rt6.length, Dtaxi pt6 rt6[k] ≤ Dtaxi pt6 rt6[j]) ∧
        (∀ j, ∀ hj : j < rt6.length, j < k → Dtaxi pt6 rt6[k] < Dtaxi pt6 rt6[j])) := by
  refine ⟨by simp [rt6], ?_, (nearestIdx_first_min Dtaxi pt6 rt6).2 (by simp [rt6])⟩
  norm_num [-WithTop.coe_ofNat, -WithTop.coe_zero, -WithTop.coe_one, -WithTop.coe_add,
    -WithTop.coe_mul, nearestIdx, nearestIdxGo, routeDistAt, WithTop.coe_lt_top,
    WithTop.coe_lt_coe, Dtaxi, pt6, rt6]

section RealGeometry

open Real RealInnerProductSpace

lemma sin_half_sq (x : ℝ) : sin (x / 2) * sin (x / 2) = (1 - cos x) / 2 := by
  have h1 := sin_sq_add_cos_sq (x / 2)
  have h2 : cos (2 * (x / 2)) = 2 * cos (x / 2) ^ 2 - 1 := cos_two_mul (x / 2)
  have h3 : (2 : ℝ) * (x / 2) = x := by ring
  rw [h3] at h2
  nlinarith [h1, h2]

lemma inner_sphVec (a b : Coordinate ℝ) :
    ⟪sphVec a, sphVec b⟫ =
      cos (a.lat * π / 180) * cos (b.lat * π / 180) * cos ((b.lon - a.lon) * π / 180)
        + sin (a.lat * π / 180) * sin (b.lat * π / 180) := by
  have h : ⟪sphVec a, sphVec b⟫ = ∑ i : Fin 3, sphVec a i * sphVec b i := by
    rw [PiLp.inner_apply]
    simp [RCLike.inner_apply, starRingEnd_apply]
  rw [h]
  rw [Fin.sum_univ_three]
  show Real.cos (a.lat * Real.pi / 180) * Real.cos (a.lon * Real.pi / 180)
        * (Real.cos (b.lat * Real.pi / 180) * Real.cos (b.lon * Real.pi / 180))
      + Real.cos (a.lat * Real.pi / 180) * Real.sin (a.lon * Real.pi / 180)
        * (Real.cos (b.lat * Real.pi / 180) * Real.sin (b.lon * Real.pi / 180))
      + Real.sin (a.lat * Real.pi / 180) * Real.sin (b.lat * Real.pi / 180) = _
  rw [show (b.lon - a.lon) * π / 180 = b.lon * π / 180 - a.lon * π / 180 by ring, Real.cos_sub]
  ring

lemma inner_sphVec_self (p : Coordinate ℝ) : ⟪sphVec p, sphVec p⟫ = 1 := by
  rw [inner_sphVec]
  rw [show (p.lon - p.lon) * π / 180 = 0 by ring, Real.cos_zero]
  nlinarith [sin_sq_add_cos_sq (p.lat * π / 180)]

lemma norm_sphVec (p : Coordinate ℝ) : ‖sphVec p‖ = 1 := by
  have h := inner_sphVec_self p
  rw [real_inner_self_eq_norm_mul_norm] at h
  rcases mul_self_eq_one_iff.mp h with h1 | h1
  · exact h1
  · have := norm_nonneg (sphVec p)
    linarith

lemma abs_inner_sphVec_le_one (a b : Coordinate ℝ) : |⟪sphVec a, sphVec b⟫| ≤ 1 := by
  have h := abs_real_inner_le_norm (sphVec a) (sphVec b)
  rwa [norm_sphVec, norm_sphVec, one_mul] at h

lemma atan2_sqrt_eq_arcsin {t : ℝ} (h0 : 0 ≤ t) (h1 : t ≤ 1) :
    atan2 (Real.sqrt t) (Real.sqrt (1 - t)) = arcsin (Real.sqrt t) := by
  have habs : Complex.abs ⟨Real.sqrt (1 - t), Real.sqrt t⟩ = 1 := by
    rw [Complex.abs_apply, Complex.normSq_mk]
    rw [Real.mul_self_sqrt (by linarith), Real.mul_self_sqrt h0]
    norm_num
  rw [atan2, Complex.arg_of_re_nonneg (by exact Real.sqrt_nonneg _), habs]
  norm_num

lemma arccos_eq_two_arcsin {t : ℝ} (h0 : 0 ≤ t) (h1 : t ≤ 1) :
    2 * arcsin (Real.sqrt t) = arccos (1 - 2 * t) := by
  have hs1 : Real.sqrt t ≤ 1 := by
    have h := Real.sqrt_le_sqrt h1
    rwa [Real.sqrt_one] at h
  have hcos2 : cos (2 * arcsin (Real.sqrt t)) = 1 - 2 * t := by
    rw [cos_two_mul, Real.cos_arcsin, Real.sq_sqrt (by rw [Real.sq_sqrt h0]; linarith)]
    rw [Real.sq_sqrt h0]
    ring
  have hrange1 : 0 ≤ 2 * arcsin (Real.sqrt t) := by
    have := Real.arcsin_nonneg.mpr (Real.sqrt_nonneg t)
    linarith
  have hrange2 : 2 * arcsin (Real.sqrt t) ≤ π := by
    have := Real.arcsin_le_pi_div_two (Real.sqrt t)
    linarith
  rw [← hcos2, Real.arccos_cos hrange1 hrange2]

lemma haversine_eq_arccos (a b : Coordinate ℝ) :
    haversineDistance a b = 6371000 * arccos ⟪sphVec a, sphVec b⟫ := by
  have hbound := abs_inner_sphVec_le_one a b
  have h1 : -1 ≤ ⟪sphVec a, sphVec b⟫ := (abs_le.mp hbound).1
  have h2 : ⟪sphVec a, sphVec b⟫ ≤ 1 := (abs_le.mp hbound).2
  have haa : Real.sin ((b.lat - a.lat) * Real.pi / 180 / 2)
        * Real.sin ((b.lat - a.lat) * Real.pi / 180 / 2)
      + Real.cos (a.lat * Real.pi / 180) * Real.cos (b.lat * Real.pi / 180)
        * (Real.sin ((b.lon - a.lon) * Real.pi / 180 / 2)
            * Real.sin ((b.lon - a.lon) * Real.pi / 180 / 2))
      = (1 - ⟪sphVec a, sphVec b⟫) / 2 := by
    rw [sin_half_sq, sin_half_sq, inner_sphVec]
    rw [show (b.lat - a.lat) * π / 180 = b.lat * π / 180 - a.lat * π / 180 by ring, Real.cos_sub]
    ring
  have ht0 : 0 ≤ (1 - ⟪sphVec a, sphVec b⟫) / 2 := by linarith
  have ht1 : (1 - ⟪sphVec a, sphVec b⟫) / 2 ≤ 1 := by linarith
  simp only [haversineDistance]
  rw [haa, atan2_sqrt_eq_arcsin ht0 ht1, arccos_eq_two_arcsin ht0 ht1]
  rw [show 1 - 2 * ((1 - ⟪sphVec a, sphVec b⟫) / 2) = ⟪sphVec a, sphVec b⟫ by ring]

/-- Triangle inequality for the central angle `arccos ⟪·, ·⟫` between unit
vectors of a real inner product space. -/
lemma arccos_inner_triangle {E : Type} [NormedAddCommGroup E] [InnerProductSpace ℝ E]
    (u v w : E) (hu : ‖u‖ = 1) (hv : ‖v‖ = 1) (hw : ‖w‖ = 1) :
    arccos ⟪u, w⟫ ≤ arccos ⟪u, v⟫ + arccos ⟪v, w⟫ := by
  have hab : |⟪u, v⟫| ≤ 1 := by
    have h := abs_real_inner_le_norm u v
    rwa [hu, hv, one_mul] at h
  have hbb : |⟪v, w⟫| ≤ 1 := by
    have h := abs_real_inner_le_norm v w
    rwa [hv, hw, one_mul] at h
  rcases le_or_lt π (arccos ⟪u, v⟫ + arccos ⟪v, w⟫) with hcase | hcase
  · exact le_trans (Real.arccos_le_pi _) hcase
  · have ha1 := (abs_le.mp hab).1
    have ha2 := (abs_le.mp hab).2
    have hb1 := (abs_le.mp hbb).1
    have hb2 := (abs_le.mp hbb).2
    have huu : ⟪u, u⟫ = 1 := by rw [real_inner_self_eq_norm_mul_norm, hu, one_mul]
    have hvv : ⟪v, v⟫ = 1 := by rw [real_inner_self_eq_norm_mul_norm, hv, one_mul]
    have hww : ⟪w, w⟫ = 1 := by rw [real_inner_self_eq_norm_mul_norm, hw, one_mul]
    have hip : ⟪u - ⟪u, v⟫ • v, w - ⟪v, w⟫ • v⟫
        = ⟪u, w⟫ - ⟪u, v⟫ * ⟪v, w⟫ := by
      rw [inner_sub_left, inner_sub_right, inner_sub_right, real_inner_smul_left,
        real_inner_smul_left, real_inner_smul_right, real_inner_smul_right, hvv]
      ring
    have huself : ⟪u - ⟪u, v⟫ • v, u - ⟪u, v⟫ • v⟫ = 1 - ⟪u, v⟫ ^ 2 := by
      rw [inner_sub_left, inner_sub_right, inner_sub_right, real_inner_smul_left,
        real_inner_smul_left, real_inner_smul_right, real_inner_smul_right, hvv, huu,
        real_inner_comm v u]
      ring
    have hwself : ⟪w - ⟪v, w⟫ • v, w - ⟪v, w⟫ • v⟫ = 1 - ⟪v, w⟫ ^ 2 := by
      rw [inner_sub_left, inner_sub_right, inner_sub_right, real_inner_smul_left,
        real_inner_smul_left, real_inner_smul_right, real_inner_smul_right, hvv, hww,
        real_inner_comm w v]
      ring
    have hnu : ‖u - ⟪u, v⟫ • v‖ = Real.sqrt (1 - ⟪u, v⟫ ^ 2) := by
      rw [norm_eq_sqrt_real_inner, huself]
    have hnw : ‖w - ⟪v, w⟫ • v‖ = Real.sqrt (1 - ⟪v, w⟫ ^ 2) := by
      rw [norm_eq_sqrt_real_inner, hwself]
    have hcs := abs_real_inner_le_norm (u - ⟪u, v⟫ • v) (w - ⟪v, w⟫ • v)
    rw [hip, hnu, hnw] at hcs
    have hkey : cos (arccos ⟪u, v⟫ + arccos ⟪v, w⟫) ≤ ⟪u, w⟫ := by
      rw [cos_add, Real.cos_arccos ha1 ha2, Real.cos_arccos hb1 hb2, Real.sin_arccos,
        Real.sin_arccos]
      have hlow := (abs_le.mp hcs).1
      linarith
    calc arccos ⟪u, w⟫
        ≤ arccos (cos (arccos ⟪u, v⟫ + arccos ⟪v, w⟫)) := by
          rw [Real.arccos_eq_pi_div_two_sub_arcsin, Real.arccos_eq_pi_div_two_sub_arcsin]
          have hmono := Real.monotone_arcsin hkey
          linarith
      _ = arccos ⟪u, v⟫ + arccos ⟪v, w⟫ :=
          Real.arccos_cos (add_nonneg (Real.arccos_nonneg _) (Real.arccos_nonneg _))
            (le_of_lt hcase)

/-- The haversine detour estimate is nonnegative in exact arithmetic: the
haversine distance is `6371000` times the central angle between unit
vectors, which satisfies the triangle inequality. -/
lemma estimateDetour_haversine_nonneg (offer : RideOffer ℝ) (p q : Coordinate ℝ) :
    0 ≤ estimateDetourDistance haversineDistance offer p q := by
  rw [estimateDetourDistance, haversine_eq_arccos, haversine_eq_arccos,
    haversine_eq_arccos, haversine_eq_arccos]
  have t1 := arccos_inner_triangle (sphVec offer.departure) (sphVec q)
    (sphVec offer.destination) (norm_sphVec _) (norm_sphVec _) (norm_sphVec _)
  have t2 := arccos_inner_triangle (sphVec offer.departure) (sphVec p) (sphVec q)
    (norm_sphVec _) (norm_sphVec _) (norm_sphVec _)
  linarith

/-- C5, counterexample: `haversineDistance` is zero at two distinct valid
coordinates (two points at the north pole, latitude 90 with different
longitudes), so zero distance does not imply equality of coordinates. -/
theorem haversine_zero_at_distinct_points :
    haversineDistance ⟨90, 0⟩ ⟨90, 90⟩ = 0 ∧ (⟨90, 0⟩ : Coordinate ℝ) ≠ ⟨90, 90⟩ := by
  constructor
  · have hip : ⟪sphVec ⟨90, 0⟩, sphVec ⟨90, 90⟩⟫ = 1 := by
      rw [inner_sphVec]
      norm_num [show (90 : ℝ) * π / 180 = π / 2 by ring, Real.cos_pi_div_two,
        Real.sin_pi_div_two]
    rw [haversine_eq_arccos, hip, Real.arccos_one, mul_zero]
  · intro h
    have hlon := congrArg Coordinate.lon h
    norm_num at hlon

/-- C5, amended: `haversineDistance` is symmetric and vanishes on equal
coordinates; but zero distance does not imply equality (see the
counterexample at the pole), so only the forward direction of the
"zero iff equal" clause holds. -/
theorem haversine_symm_and_self_zero (a b : Coordinate ℝ) :
    haversineDistance a b = haversineDistance b a ∧ haversineDistance a a = 0 := by
  constructor
  · rw [haversine_eq_arccos, haversine_eq_arccos, real_inner_comm]
  · rw [haversine_eq_arccos, inner_sphVec_self, Real.arccos_one, mul_zero]

/-- C9, counterexample: in exact real arithmetic `estimateDetourDistance`
over `haversineDistance` can never be negative — the haversine distance is
`6371000` times the central angle between unit vectors, a pseudometric, so
the three detour legs always dominate the direct leg. -/
theorem estimateDetour_never_negative :
    ¬ ∃ (offer : RideOffer ℝ) (pickupPoint dropoffPoint : Coordinate ℝ),
      estimateDetourDistance haversineDistance offer pickupPoint dropoffPoint < 0 := by
  rintro ⟨offer, p, q, h⟩
  exact absurd h (not_lt.mpr (estimateDetour_haversine_nonneg offer p q))

end RealGeometry

/-- C9, amended: the matcher does not clamp or reject non-positive detours:
for any distance primitive, an offer with non-negative `maxDetourMinutes`
whose estimated detour is `≤ 0` passes the detour filter, and with the
distance primitive abstracted (negative detours are impossible for the
exact haversine primitive, and can only arise from floating-point rounding)
an offer with a strictly negative detour can appear in the returned
matches, with a correspondingly reduced score. -/
theorem nonpositive_detour_passes_filters :
    (∀ (D : Coordinate α → Coordinate α → α) (request : RideRequest α) (offer : RideOffer α),
      0 ≤ offer.maxDetourMinutes →
      estimateDetourDistance D offer request.from_ request.to_ ≤ 0 →
      passesDetourFilter D request offer = true) ∧
    (∃ (D : Coordinate ℚ → Coordinate ℚ → ℚ) (offers : List (RideOffer ℚ))
        (request : RideRequest ℚ) (t : ℚ) (offer : RideOffer ℚ) (s : ℚ),
      estimateDetourDistance D offer request.from_ request.to_ < 0 ∧
        (offer, s) ∈ findMatches D offers request t) := by
  constructor
  · intro D request offer hmax hdet
    have hdm : detourDistanceToMinutes
        (estimateDetourDistance D offer request.from_ request.to_) 30 ≤ 0 := by
      rw [detourDistanceToMinutes]
      exact div_nonpos_iff.mpr (Or.inr ⟨hdet, by norm_num⟩)
    have h1 : ¬ (offer.maxDetourMinutes < detourDistanceToMinutes
        (estimateDetourDistance D offer request.from_ request.to_) 30) :=
      not_lt.mpr (le_trans hdm hmax)
    have h2 : ¬ ((5 : α) < detourDistanceToMinutes
        (estimateDetourDistance D offer request.from_ request.to_) 30) :=
      not_lt.mpr (le_trans hdm (by norm_num))
    simp [passesDetourFilter, h1, h2]
  · refine ⟨Dneg, [offerN], reqN, 0, offerN, -2/5, ?_, ?_⟩
    · norm_num [estimateDetourDistance, Dneg, offerN, reqN]
    · rw [findMatches_fixtureN]
      exact List.mem_singleton.mpr rfl

/-- Witness for C9's amended claim at a concrete input: under `Dneg` the
detour of `offerN` against `reqN` is negative, and the detour filter
retains the offer. -/
theorem nonpositive_detour_passes_filters_witness :
    (0 : ℚ) ≤ offerN.maxDetourMinutes ∧
      estimateDetourDistance Dneg offerN reqN.from_ reqN.to_ ≤ 0 ∧
      passesDetourFilter Dneg reqN offerN = true := by
  have h1 : (0 : ℚ) ≤ offerN.maxDetourMinutes := by norm_num [offerN]
  have h2 : estimateDetourDistance Dneg offerN reqN.from_ reqN.to_ ≤ 0 := by
    norm_num [estimateDetourDistance, Dneg, offerN, reqN]
  exact ⟨h1, h2, nonpositive_detour_passes_filters.1 Dneg reqN offerN h1 h2⟩

/-- C2, counterexample: contrary to the claim, no choice of offers, request
and two current times makes the two results differ — the body of
`findMatches` (with the source's `haversineDistance` primitive) never reads
its `currentTime` parameter; the departure window is built from
`request.departureTime` alone. -/
theorem currentTime_never_observable :
    ¬ ∃ (offers : List (RideOffer ℝ)) (request : RideRequest ℝ) (t₁ t₂ : ℝ),
      findMatches haversineDistance offers request t₁
        ≠ findMatches haversineDistance offers request t₂ := by
  rintro ⟨offers, request, t₁, t₂, h⟩
  exact h rfl

/-- C2, amended: the `currentTime` parameter is accepted but never read, so
`findMatches` returns identical results for any two values of it. -/
theorem findMatches_ignores_currentTime (D : Coordinate α → Coordinate α → α)
    (offers : List (RideOffer α)) (request : RideRequest α) (t₁ t₂ : α) :
    findMatches D offers request t₁ = findMatches D offers request t₂ :=
  rfl

end OMW
